import Mathlib

/-!
# Verification of the Agoric iframe sandbox (`src/index.js`)

A shallow embedding of the sandbox's pure logic: network-profile lookup,
the account-invitation resolver, offer routing, the accepted-status data
selection, error-message extraction, the message router, the implicit
reconnect steps, and initialization.  JavaScript `null`/`undefined` are
modelled with `Option`; thrown exceptions with `Except`; the `||` operator
on strings (where `""` is falsy) with `jsOrStr`; on objects with `jsOrOpt`.
-/

namespace AgoricSandbox

/-- JavaScript `s || d` for a possibly-null string `s`: `null`, `undefined`
and `""` are falsy and yield the default `d`. -/
def jsOrStr (s : Option String) (d : String) : String :=
  match s with
  | none => d
  | some v => if v = "" then d else v

/-- JavaScript `a || b` where `a` is a possibly-null object value: any
object is truthy, `null`/`undefined` fall through to `b`. -/
def jsOrOpt {α : Type} (a b : Option α) : Option α :=
  match a with
  | some v => some v
  | none => b

/-- Values thrown by the sandbox code.  `errorObj` is an `Error` instance
whose `message` is the given string; `plainObj` is a plain thrown object
with optional string `code` and `message` fields, its `JSON.stringify`
rendering `json`, and its `String(...)` rendering `toStr`; `jsString` is a
thrown bare string; `typeError` is the `TypeError` raised by reading the
named property of `null`. -/
inductive JsError where
  | errorObj (msg : String)
  | plainObj (code : Option String) (message : Option String)
      (json : String) (toStr : String)
  | jsString (s : String)
  | typeError (prop : String)
deriving Repr, DecidableEq

/-- The `code` field of a thrown value, when it is an object carrying one
(`Error` instances and primitives have none here). -/
def errCode : JsError → Option String
  | .plainObj c _ _ _ => c
  | _ => none

/-- The `message` field of a thrown value: an `Error` instance's message,
or a plain object's `message` field when present. -/
def errMessageField : JsError → Option String
  | .errorObj m => some m
  | .plainObj _ m _ _ => m
  | .typeError p => some ("Cannot read properties of null (reading " ++ p ++ ")")
  | .jsString _ => none

/-- Model of `getErrorMessage` (src/index.js:406-433): `Error` instances and objects
with a `message` field yield that message; strings yield themselves;
otherwise `JSON.stringify`, falling back to `String(error)` when the
rendering is `"\x7b\x7d"` or `"null"`. -/
def getErrorMessage : JsError → String
  | .errorObj m => m
  | .typeError p => "Cannot read properties of null (reading " ++ p ++ ")"
  | .plainObj _ (some m) _ _ => m
  | .plainObj _ none json toStr =>
      if json = "\x7b\x7d" ∨ json = "null" then toStr else json
  | .jsString s => s

/-- One network profile (src/index.js:43-68). -/
structure NetworkConfig where
  CHAIN_ID : String
  RPC_ENDPOINT : String
  REST_ENDPOINT : String
  NETWORK_CONFIG_HREF : String
deriving Repr, DecidableEq

def mainnetConfig : NetworkConfig :=
  { CHAIN_ID := "agoric-3"
    RPC_ENDPOINT := "https://main-a.rpc.agoric.net/:443"
    REST_ENDPOINT := "https://main-a.api.agoric.net"
    NETWORK_CONFIG_HREF := "https://followmain.agoric.net/network-config" }

def devnetConfig : NetworkConfig :=
  { CHAIN_ID := "agoricdev-25"
    RPC_ENDPOINT := "https://devnet.rpc.agoric.net:443"
    REST_ENDPOINT := "https://devnet.api.agoric.net"
    NETWORK_CONFIG_HREF := "https://devnet.agoric.net/network-config" }

def emerynetConfig : NetworkConfig :=
  { CHAIN_ID := "agoric-emerynet-9"
    RPC_ENDPOINT := "https://emerynet.rpc.agoric.net:443"
    NETWORK_CONFIG_HREF := "https://emerynet.agoric.net/network-config"
    REST_ENDPOINT := "https://emerynet.api.agoric.net" }

def localConfig : NetworkConfig :=
  { CHAIN_ID := "agoriclocal"
    RPC_ENDPOINT := "http://localhost:26657"
    NETWORK_CONFIG_HREF := "https://local.agoric.net/network-config"
    REST_ENDPOINT := "http://localhost:1317" }

/-- The outcome of a JavaScript bracket lookup on the `networkConfigs`
object literal: one of its own profile properties, a truthy member
inherited from `Object.prototype` (a function such as `toString`, or the
`__proto__` object), or `undefined`. -/
inductive JsLookupResult where
  | config (c : NetworkConfig)
  | protoMember (name : String)
  | undef
deriving Repr, DecidableEq

/-- The property names a plain object literal inherits from
`Object.prototype`, all bound to truthy values. -/
def objectProtoMembers : List String :=
  ["constructor", "hasOwnProperty", "isPrototypeOf", "propertyIsEnumerable",
   "toLocaleString", "toString", "valueOf", "__proto__", "__defineGetter__",
   "__defineSetter__", "__lookupGetter__", "__lookupSetter__"]

/-- Lookup `networkConfigs[name]`: JS property lookup on the fixed
configuration object literal.  An own key yields its profile; a key naming
an inherited `Object.prototype` member yields that (truthy) member via the
prototype chain; any other key yields `undefined`. -/
def networkConfigsLookup : String → JsLookupResult
  | "mainnet" => JsLookupResult.config mainnetConfig
  | "devnet" => JsLookupResult.config devnetConfig
  | "emerynet" => JsLookupResult.config emerynetConfig
  | "local" => JsLookupResult.config localConfig
  | n =>
    if n ∈ objectProtoMembers then JsLookupResult.protoMember n
    else JsLookupResult.undef

/-- JavaScript `r || d` on a lookup result: only `undefined` is falsy —
profiles and inherited prototype members are objects or functions, hence
truthy, and are returned as they are. -/
def lookupOr (r d : JsLookupResult) : JsLookupResult :=
  match r with
  | JsLookupResult.undef => d
  | r => r

/-- Model of `getConfig` (src/index.js:75-79): normalize a null/empty name to
`"devnet"`, then look it up, falling back to the devnet profile only when
the bracket lookup yields `undefined`. -/
def getConfig (network : Option String) : JsLookupResult :=
  let normalizedNetwork := jsOrStr network "devnet"
  lookupOr (networkConfigsLookup normalizedNetwork)
    (JsLookupResult.config devnetConfig)

/-- The first element of a used invitation's `value` array, as inspected by
the resolver's filter: `description` is the only field read. -/
structure InvitationDetail where
  description : String
deriving Repr, DecidableEq

/-- The value side of one `offerToUsedInvitation` entry.  `value` is the
invitation's `value` property: `none` when absent or not an array,
otherwise the array, whose elements may themselves be null. -/
structure UsedInvitation where
  value : Option (List (Option InvitationDetail))
deriving Repr, DecidableEq

/-- One entry of `offerToUsedInvitation`: invitation id paired with the
used invitation (possibly null, as guarded by `inv[1]?.value`). -/
abbrev InvitationEntry := String × Option UsedInvitation

/-- The slice of the current wallet record read by the resolver. -/
structure WalletRecord where
  offerToUsedInvitation : List InvitationEntry
deriving Repr, DecidableEq

/-- The resolver's return value (src/index.js:393-396). -/
structure AccountInvitation where
  id : String
  invitation : Option UsedInvitation
deriving Repr, DecidableEq

/-- Lexicographic string comparison on the underlying character lists:
`charListLe a b` is `true` when the string with characters `a` is at most
the string with characters `b`.  This models what
`x.localeCompare(y) ≤ 0` computes for the plain code-unit strings the
invitation ids are (see `charListLe_le` below for the agreement with the
standard string order). -/
def charListLe : List Char → List Char → Bool
  | [], _ => true
  | _ :: _, [] => false
  | a :: as, b :: bs =>
    if a < b then true else if b < a then false else charListLe as bs

/-- Stable insertion of an entry into a list sorted descending by
invitation id: the entry goes in front of the first element whose id is
at most its own, so among equal ids the earlier element stays first —
matching the stability of `Array.prototype.sort`. -/
def insertDescById (e : InvitationEntry) :
    List InvitationEntry → List InvitationEntry
  | [] => [e]
  | x :: xs =>
    if charListLe x.1.data e.1.data then e :: x :: xs
    else x :: insertDescById e xs

/-- The sort `.sort((a, b) => b[0].localeCompare(a[0]))` of
src/index.js:385: a stable comparison sort, descending by invitation id
as a string, modelled as stable insertion sort with the same comparator. -/
def sortDescById : List InvitationEntry → List InvitationEntry
  | [] => []
  | e :: rest => insertDescById e (sortDescById rest)

/-- The filter predicate of `getAccountInvitation` (src/index.js:373-384):
`inv[1]?.value` must be an array whose first element is truthy and whose
`description` equals the sentinel `"qstnAccountKitInvitation"`. -/
def matchesSentinel (inv : InvitationEntry) : Bool :=
  match inv.2 with
  | none => false
  | some u =>
    match u.value with
    | none => false
    | some l =>
      match l.head? with
      | some (some d) => d.description = "qstnAccountKitInvitation"
      | _ => false

/-- Model of `getAccountInvitation` (src/index.js:364-401).  First component: was
`watchWallet()` invoked (it is, exactly when no wallet record is present)?
Second component: the call's outcome.  When `currentWalletRecord` is null
the code goes on to read `.offerToUsedInvitation` of null and therefore
throws a `TypeError`; otherwise it filters entries by the sentinel
description, sorts descending by invitation id (the JS comparator
`(a, b) => b[0].localeCompare(a[0])`) and takes the first. -/
def getAccountInvitation (rec : Option WalletRecord) :
    Bool × Except JsError (Option AccountInvitation) :=
  match rec with
  | none => (true, Except.error (JsError.typeError "offerToUsedInvitation"))
  | some r =>
    let matched := r.offerToUsedInvitation.filter matchesSentinel
    let sorted := sortDescById matched
    match sorted.head? with
    | some inv => (false, Except.ok (some { id := inv.1, invitation := inv.2 }))
    | none => (false, Except.ok none)

/-- The invitation ids of the entries matching the sentinel description,
the pool the resolver selects from. -/
def matchingIds (r : WalletRecord) : List String :=
  (r.offerToUsedInvitation.filter matchesSentinel).map Prod.fst

/-- The connected wallet handle: only its address is read here. -/
structure Wallet where
  address : String
deriving Repr, DecidableEq

/-- The global mutable `state` object (src/index.js:109-119).  The watcher
handle is modelled by the network name it was created for (`none` = null
watcher); brands as an association list from brand key to an opaque brand
descriptor. -/
structure SandboxState where
  network : Option String
  watcher : Option String
  wallet : Option Wallet
  currentWalletRecord : Option WalletRecord
  brands : Option (List (String × String))
  contractInstance : Option String
  accountInvitation : Option AccountInvitation
  hasAccount : Bool
  isInitialized : Bool
deriving Repr, DecidableEq

/-- The initial value of `state` (src/index.js:109-119). -/
def initialState : SandboxState :=
  { network := none, watcher := none, wallet := none
    currentWalletRecord := none, brands := none, contractInstance := none
    accountInvitation := none, hasAccount := false, isInitialized := false }

/-- Lookup `state.brands?.[brandKey]` — property lookup on the brands object. -/
def brandLookup (brands : Option (List (String × String))) (key : String) :
    Option String :=
  match brands with
  | none => none
  | some l => (l.find? (fun p => p.1 = key)).map Prod.snd

/-- JavaScript `String.prototype.toUpperCase` (ASCII range, which is all
the denominations use): upper-case every character. -/
def jsToUpperCase (s : String) : String :=
  String.mk (s.data.map Char.toUpper)

/-- The brand-key computation of `makeOffer` (src/index.js:528):
`denom.toUpperCase() === "UBLD" ? "BLD" : denom.toUpperCase()`. -/
def brandKeyOf (denom : String) : String :=
  if jsToUpperCase denom = "UBLD" then "BLD" else jsToUpperCase denom

/-- The parameters of `makeOffer` (src/index.js:511).  `messages` is the
opaque transaction-message array; `totalAmount` is held as the integer
value that `BigInt(totalAmount)` yields. -/
structure MakeOfferParams where
  messages : String
  totalAmount : Int
  denom : String
deriving Repr, DecidableEq

/-- The two invitation specs built by `makeOffer` (src/index.js:570-589):
a continuing invitation referencing a previous offer, with argument tuple
`invitationArgs`, or a from-contract public invitation (`inst` models the
spec's `instance` field, a reserved word in Lean). -/
inductive InvitationSpec where
  | continuing (previousOffer : String) (invitationMakerName : String)
      (invitationArgs : String × List String)
  | contract (inst : String) (publicInvitationMaker : String)
deriving Repr, DecidableEq

/-- The proposal built by `makeOffer` (src/index.js:543-551): one `give`
line under the `Deposit` slot, no wants. -/
structure Proposal where
  giveDepositBrand : String
  giveDepositValue : Int
deriving Repr, DecidableEq

/-- Everything `makeOffer` decides before submitting: invitation spec,
proposal, offer args (`none` models the empty `\x7b\x7d`, `some m` models
`\x7bmessages: m\x7d`), and the `accountWasCreated` flag. -/
structure OfferPlan where
  invitationSpec : InvitationSpec
  proposal : Proposal
  offerArgs : Option String
  accountWasCreated : Bool
deriving Repr, DecidableEq

/-- The synchronous prefix of `makeOffer` (src/index.js:511-596):
precondition checks in order (wallet, contract instance, brands), brand
resolution, then the routing decision driven by a fresh
`getAccountInvitation()` call — whose `TypeError` on a missing wallet
record propagates out of `makeOffer`. -/
def makeOfferPlan (st : SandboxState) (p : MakeOfferParams) :
    Except JsError OfferPlan :=
  if st.wallet.isNone then
    Except.error (JsError.errorObj "Wallet not connected. Call connectWallet() first.")
  else if st.contractInstance.isNone then
    Except.error (JsError.errorObj
      "Contract not found. Ensure contract instance or installation are loaded.")
  else if st.brands.isNone then
    Except.error (JsError.errorObj "Brands not loaded. Wait for chain storage to sync.")
  else
    let brandKey := brandKeyOf p.denom
    match brandLookup st.brands brandKey with
    | none =>
      Except.error (JsError.errorObj ("Brand not found for " ++ brandKey ++
        ". Available brands: " ++
        ", ".intercalate (((st.brands.getD []).map Prod.fst))))
    | some brand =>
      let proposal : Proposal :=
        { giveDepositBrand := brand, giveDepositValue := p.totalAmount }
      match (getAccountInvitation st.currentWalletRecord).2 with
      | Except.error e => Except.error e
      | Except.ok (some acct) =>
        Except.ok
          { invitationSpec := InvitationSpec.continuing acct.id
              "makeTransactionInvitation" ("sendTransactions", [p.messages])
            proposal := proposal
            offerArgs := none
            accountWasCreated := false }
      | Except.ok none =>
        Except.ok
          { invitationSpec := InvitationSpec.contract
              (st.contractInstance.getD "") "createQstnAccountKit"
            proposal := proposal
            offerArgs := some p.messages
            accountWasCreated := true }

/-- A transaction record carried in offer status updates: the `txn`
field (possibly absent) and the offer id. -/
structure TxnInfo where
  transactionHash : String
deriving Repr, DecidableEq

/-- The payload of an offer status update (`update.data` / `seatedData`) or
of the REST fallback (`getLastTransaction` result). -/
structure TxData where
  txn : Option TxnInfo
  offerId : Option Int
deriving Repr, DecidableEq

/-- The data selection of the `accepted` branch (src/index.js:643-663):
`finalData = seatedData || update.data`; then, when `finalData` is absent
or lacks a `txn` field, the REST fallback result replaces it when that
fallback returned something, else `finalData` is kept as is. -/
def acceptedFinalData (seatedData updateData apiTxData : Option TxData) :
    Option TxData :=
  let finalData := jsOrOpt seatedData updateData
  match finalData with
  | none =>
    match apiTxData with
    | some t => some t
    | none => none
  | some d =>
    if d.txn.isNone then
      match apiTxData with
      | some t => some t
      | none => some d
    else some d

/-- The value the `accepted` branch resolves the `makeOffer` promise with
(src/index.js:665-668): always status `"accepted"`, never a rejection. -/
structure OfferResult where
  status : String
  data : Option TxData
deriving Repr, DecidableEq

/-- The resolution of the offer promise on a terminal `accepted` update,
as a function of the remembered `seated` payload, the update's own
payload, and the REST fallback's result. -/
def acceptedResolution (seatedData updateData apiTxData : Option TxData) :
    OfferResult :=
  { status := "accepted", data := acceptedFinalData seatedData updateData apiTxData }

/-- The `GET_STATUS` snapshot (src/index.js:912-922). -/
structure StatusSnapshot where
  initialized : Bool
  connected : Bool
  address : Option String
  hasBrands : Bool
  hasInstance : Bool
  hasAccount : Bool
  accountInvitationId : Option String
  brandsAvailable : List String
  network : Option String
deriving Repr, DecidableEq

/-- Builds the `GET_STATUS` result object from the current state. -/
def getStatusSnapshot (st : SandboxState) : StatusSnapshot :=
  { initialized := st.isInitialized
    connected := st.wallet.isSome
    address := st.wallet.map Wallet.address
    hasBrands := st.brands.isSome
    hasInstance := st.contractInstance.isSome
    hasAccount := st.hasAccount
    accountInvitationId := st.accountInvitation.map AccountInvitation.id
    brandsAvailable := (st.brands.getD []).map Prod.fst
    network := st.network }

/-- Payload of an outbound success response: either the `GET_STATUS`
snapshot (computed synchronously) or the opaque result of one of the four
asynchronous operations. -/
inductive RespData where
  | statusSnapshot (s : StatusSnapshot)
  | opaqueVal (tag : String)
deriving Repr, DecidableEq

/-- The error object of a failure response (src/index.js:949-952). -/
structure ResponseError where
  code : String
  message : String
deriving Repr, DecidableEq

/-- One `window.parent.postMessage` emission.  `success` is `none` for the
`AGORIC_READY` announcement, which carries neither id nor payload. -/
structure OutMessage where
  mtype : String
  id : Option String
  success : Option Bool
  data : Option RespData
  errorField : Option ResponseError
deriving Repr, DecidableEq

/-- The success response (src/index.js:931-939). -/
def mkSuccessResponse (id : Option String) (d : RespData) : OutMessage :=
  { mtype := "AGORIC_RESPONSE", id := id, success := some true
    data := some d, errorField := none }

/-- The failure response built in the router's catch (src/index.js:944-955):
`code: error.code || "UNKNOWN_ERROR"`,
`message: error.message || "An unknown error occurred"`. -/
def mkErrorResponse (id : Option String) (e : JsError) : OutMessage :=
  { mtype := "AGORIC_RESPONSE", id := id, success := some false
    data := none
    errorField := some
      { code := jsOrStr (errCode e) "UNKNOWN_ERROR"
        message := jsOrStr (errMessageField e) "An unknown error occurred" } }

/-- The outcome of each of the four asynchronous operations for the
invocation being routed: a result value or a thrown failure. -/
structure OpResults where
  connectWallet : Except JsError RespData
  signData : Except JsError RespData
  fundSurvey : Except JsError RespData
  claimRewards : Except JsError RespData
deriving Repr

/-- The dispatch switch (src/index.js:894-928): five recognized types reach
a branch (`GET_STATUS` computed from the state, the rest from the
operation outcomes); any other type hits `default` and returns without
replying. -/
def dispatchOp (mtype : String) (ops : OpResults) (st : SandboxState) :
    Option (Except JsError RespData) :=
  match mtype with
  | "CONNECT_WALLET" => some ops.connectWallet
  | "SIGN_DATA" => some ops.signData
  | "FUND_SURVEY" => some ops.fundSurvey
  | "CLAIM_REWARDS" => some ops.claimRewards
  | "GET_STATUS" => some (Except.ok (RespData.statusSnapshot (getStatusSnapshot st)))
  | _ => none

/-- The message event listener (src/index.js:874-957): the two reserved
tags return early; a recognized type produces exactly one response
(success or failure via the catch); an unrecognized type produces no
emission at all. -/
def handleMessage (mtype : String) (mid : Option String) (ops : OpResults)
    (st : SandboxState) : List OutMessage :=
  if mtype = "AGORIC_RESPONSE" ∨ mtype = "AGORIC_READY" then []
  else
    match dispatchOp mtype ops st with
    | none => []
    | some (Except.ok v) => [mkSuccessResponse mid v]
    | some (Except.error e) => [mkErrorResponse mid e]

/-- Model of `setupWatcher` (src/index.js:190-223), success path: normalizes the
network argument, replaces the watcher with one for the target network's
configuration, and sets `state.network` to the target. -/
def setupWatcherStep (st : SandboxState) (network : Option String) :
    SandboxState :=
  let targetNetwork := jsOrStr network "devnet"
  { st with watcher := some targetNetwork, network := some targetNetwork }

/-- The watcher guard at the top of `connectWallet` (src/index.js:245-252):
when no watcher exists or the target network differs from the session
network, `setupWatcher` runs for the target network; otherwise the state
is untouched. -/
def connectWalletWatcherStep (st : SandboxState) (network : Option String) :
    SandboxState :=
  let targetNetwork := jsOrStr network "devnet"
  if st.watcher.isNone ∨ st.network ≠ some targetNetwork then
    setupWatcherStep st (some targetNetwork)
  else st

/-- The implicit reconnect of `fundSurvey` (src/index.js:764-766): when no
wallet is connected it calls `connectWallet()` with no arguments. -/
def fundSurveyEnsureConnected (st : SandboxState) : SandboxState :=
  if st.wallet.isSome then st else connectWalletWatcherStep st none

/-- The implicit reconnect of `claimRewards` (src/index.js:807-809): when
no wallet is connected it calls `connectWallet()` with no arguments. -/
def claimRewardsEnsureConnected (st : SandboxState) : SandboxState :=
  if st.wallet.isSome then st else connectWalletWatcherStep st none

/-- The implicit reconnect of `signData` (src/index.js:723-726): when no
wallet is connected it calls `connectWallet(\x7b network: state.network \x7d)`,
passing the current session network. -/
def signDataEnsureConnected (st : SandboxState) : SandboxState :=
  if st.wallet.isSome then st else connectWalletWatcherStep st st.network

/-- Model of `initialize` (src/index.js:837-869), success path: runs `setupWatcher`
for the hard-coded `"mainnet"`, sets the initialization flag and (again)
the network, and only then emits the `AGORIC_READY` announcement.  The
returned list holds the emissions in order, so the announcement is sent
from the final state. -/
def initializeRun (st : SandboxState) : SandboxState × List OutMessage :=
  let st1 := setupWatcherStep st (some "mainnet")
  let st2 := { st1 with isInitialized := true, network := some "mainnet" }
  (st2, [{ mtype := "AGORIC_READY", id := none, success := none
           data := none, errorField := none }])

/-- A used invitation whose first value element carries the sentinel
description, for concrete evaluations. -/
def sentinelUsedInvitation : UsedInvitation :=
  { value := some [some { description := "qstnAccountKitInvitation" }] }

/-- A wallet record with two sentinel-matching entries keyed `"a"` and
`"b"`, in chronological insertion order. -/
def recordAB : WalletRecord :=
  { offerToUsedInvitation :=
      [("a", some sentinelUsedInvitation), ("b", some sentinelUsedInvitation)] }

/-- A state in which every `makeOffer` precondition holds (wallet
connected, contract instance known, brand registry populated with `BLD`)
but no wallet record snapshot has arrived yet. -/
def offerStateNoRecord : SandboxState :=
  { initialState with
      wallet := some { address := "agoric1sender" }
      contractInstance := some "inst1"
      brands := some [("BLD", "bldBrand")] }

/-- The same state after a wallet record without any sentinel-matching
entry has arrived. -/
def offerStateEmptyRecord : SandboxState :=
  { offerStateNoRecord with
      currentWalletRecord := some { offerToUsedInvitation := [] } }

/-- The same state after the two-entry record `recordAB` has arrived. -/
def offerStateRecordAB : SandboxState :=
  { offerStateNoRecord with currentWalletRecord := some recordAB }

/-- Offer parameters used for concrete evaluations. -/
def sampleOfferParams : MakeOfferParams :=
  { messages := "m1", totalAmount := 1000000, denom := "ubld" }

/-- Operation outcomes used for concrete evaluations of the router. -/
def sampleOps : OpResults :=
  { connectWallet := Except.ok (RespData.opaqueVal "cw")
    signData := Except.ok (RespData.opaqueVal "sd")
    fundSurvey := Except.ok (RespData.opaqueVal "fs")
    claimRewards := Except.ok (RespData.opaqueVal "cr") }

/-- A session state as left by a successful startup: mainnet watcher and
session network, no wallet yet. -/
def postInitNoWalletState : SandboxState :=
  { initialState with network := some "mainnet", watcher := some "mainnet" }

/-- C1: the spec (and the function's own JSDoc, whose declared return type
is `\x7b...\x7d | null`) says that with no wallet record present,
`getAccountInvitation` triggers a wallet-watch registration and returns
null without raising.  The code does trigger `watchWallet()` (first
component `true`), but then dereferences the null record and throws a
`TypeError` instead of returning null — the claimed error-free `none`
return does not happen.  This evaluates the code at the failing input. -/
theorem getAccountInvitation_null_record_throws :
    getAccountInvitation none =
      (true, Except.error (JsError.typeError "offerToUsedInvitation")) := rfl

/-- C7: the brand key is `"BLD"` exactly when the denomination equals
`"ubld"` case-insensitively (i.e. its upper-casing is `"UBLD"`), and is
the upper-cased denomination otherwise; in particular `"ubld"`, `"UBLD"`,
`"Ubld"` map to `"BLD"` and `"ist"` maps to `"IST"`. -/
theorem brandKey_normalization :
    (∀ denom : String, jsToUpperCase denom = "UBLD" → brandKeyOf denom = "BLD") ∧
    (∀ denom : String, jsToUpperCase denom ≠ "UBLD" → brandKeyOf denom = jsToUpperCase denom) ∧
    brandKeyOf "ubld" = "BLD" ∧ brandKeyOf "UBLD" = "BLD" ∧
    brandKeyOf "Ubld" = "BLD" ∧ brandKeyOf "ist" = "IST" := by
  refine ⟨?_, ?_, by decide, by decide, by decide, by decide⟩
  · intro denom h
    simp [brandKeyOf, h]
  · intro denom h
    simp [brandKeyOf, h]

/-- Witness for C7's theorem at concrete denominations. -/
theorem brandKey_normalization_witness :
    brandKeyOf "Ubld" = "BLD" ∧ brandKeyOf "ist" = "IST" :=
  ⟨brandKey_normalization.1 "Ubld" (by decide),
   by
    have h := brandKey_normalization.2.1 "ist" (by decide)
    simpa using h⟩

/-- Counterexample to C8 as stated.  `"toString"` is a name outside
`\x7bmainnet, devnet, emerynet, local\x7d`, so the claim says it yields
the devnet profile; but the JS bracket lookup finds the inherited, truthy
`Object.prototype.toString`, which short-circuits the
`|| networkConfigs.devnet` fallback, and `getConfig` returns that
function rather than any profile. -/
theorem getConfig_proto_counterexample :
    ("toString" : String) ∉
      (["mainnet", "devnet", "emerynet", "local"] : List String) ∧
    getConfig (some "toString") = JsLookupResult.protoMember "toString" ∧
    JsLookupResult.protoMember "toString" ≠
      JsLookupResult.config devnetConfig := by
  exact ⟨by decide, rfl, by decide⟩

/-- C8 (amended): the lookup never throws.  Null, the empty string, and
any name that is neither one of the four known names nor the name of an
inherited `Object.prototype` member (such as `"DEVNET"`) resolve to the
devnet profile; a name of an inherited `Object.prototype` member (such as
`"toString"`) instead resolves to that inherited truthy member, not to a
profile; the four known names resolve to their own profiles. -/
theorem getConfig_default_and_known :
    (∀ n : String, n ∉ (["mainnet", "devnet", "emerynet", "local"] : List String) →
      n ∉ objectProtoMembers →
      getConfig (some n) = JsLookupResult.config devnetConfig) ∧
    (∀ n : String, n ∈ objectProtoMembers →
      getConfig (some n) = JsLookupResult.protoMember n) ∧
    getConfig none = JsLookupResult.config devnetConfig ∧
    getConfig (some "") = JsLookupResult.config devnetConfig ∧
    getConfig (some "DEVNET") = JsLookupResult.config devnetConfig ∧
    getConfig (some "mainnet") = JsLookupResult.config mainnetConfig ∧
    getConfig (some "devnet") = JsLookupResult.config devnetConfig ∧
    getConfig (some "emerynet") = JsLookupResult.config emerynetConfig ∧
    getConfig (some "local") = JsLookupResult.config localConfig := by
  refine ⟨?_, ?_, rfl, rfl, rfl, rfl, rfl, rfl, rfl⟩
  · intro n hn hp
    unfold getConfig jsOrStr
    by_cases h : n = ""
    · simp [h, networkConfigsLookup, lookupOr, objectProtoMembers]
    · simp only [h, if_false]
      have hlook : networkConfigsLookup n = JsLookupResult.undef := by
        unfold networkConfigsLookup
        split <;> simp_all
      rw [hlook]
      rfl
  · intro n hm
    have hm' := hm
    simp only [objectProtoMembers, List.mem_cons, List.not_mem_nil, or_false]
      at hm'
    rcases hm' with rfl | rfl | rfl | rfl | rfl | rfl | rfl | rfl | rfl |
      rfl | rfl | rfl <;> rfl

/-- Witness for C8's amended theorem at the concrete unknown name
`"DEVNET"` (neither a known network nor a prototype member) and at the
prototype-member name `"toString"`. -/
theorem getConfig_default_witness :
    getConfig (some "DEVNET") = JsLookupResult.config devnetConfig ∧
    getConfig (some "toString") = JsLookupResult.protoMember "toString" :=
  ⟨getConfig_default_and_known.1 "DEVNET" (by decide) (by decide),
   getConfig_default_and_known.2.1 "toString" (by decide)⟩

/-- C10: the success path of `initialize` sets the session network to the
hard-coded `"mainnet"` and the initialization flag to `true`, and the
`AGORIC_READY` announcement is the (sole, final) emission, sent from that
final state; hence any `GET_STATUS` request routed after startup and
before a `CONNECT_WALLET` is answered with exactly one success response
whose snapshot reports `network = "mainnet"` and `initialized = true`. -/
theorem initialize_reports_mainnet (st0 : SandboxState) :
    (initializeRun st0).1.network = some "mainnet" ∧
    (initializeRun st0).1.isInitialized = true ∧
    (initializeRun st0).2 =
      [{ mtype := "AGORIC_READY", id := none, success := none
         data := none, errorField := none }] ∧
    (getStatusSnapshot (initializeRun st0).1).network = some "mainnet" ∧
    (getStatusSnapshot (initializeRun st0).1).initialized = true ∧
    (∀ (mid : Option String) (ops : OpResults),
      handleMessage "GET_STATUS" mid ops (initializeRun st0).1 =
        [mkSuccessResponse mid
          (RespData.statusSnapshot (getStatusSnapshot (initializeRun st0).1))]) :=
  ⟨rfl, rfl, rfl, rfl, rfl, fun _ _ => rfl⟩

/-- C9: when no wallet is connected, the implicit reconnect in `fundSurvey`
and `claimRewards` calls `connectWallet` with no arguments, so the target
network defaults to `"devnet"` whatever the session network is, and when
the session network is not already `"devnet"` the watcher is replaced by a
devnet watcher; `signData`'s implicit reconnect instead passes the current
session network, so with a watcher already present for session network `n`
it leaves the state untouched. -/
theorem implicit_reconnect_network (st : SandboxState) (h : st.wallet = none) :
    fundSurveyEnsureConnected st = connectWalletWatcherStep st none ∧
    claimRewardsEnsureConnected st = connectWalletWatcherStep st none ∧
    (fundSurveyEnsureConnected st).network = some "devnet" ∧
    (claimRewardsEnsureConnected st).network = some "devnet" ∧
    (st.network ≠ some "devnet" →
      (fundSurveyEnsureConnected st).watcher = some "devnet" ∧
      (claimRewardsEnsureConnected st).watcher = some "devnet") ∧
    signDataEnsureConnected st = connectWalletWatcherStep st st.network ∧
    (∀ n : String, st.network = some n → n ≠ "" → st.watcher.isSome = true →
      signDataEnsureConnected st = st) := by
  have hfund : fundSurveyEnsureConnected st = connectWalletWatcherStep st none := by
    simp [fundSurveyEnsureConnected, h]
  have hclaim : claimRewardsEnsureConnected st = connectWalletWatcherStep st none := by
    simp [claimRewardsEnsureConnected, h]
  have hsign : signDataEnsureConnected st = connectWalletWatcherStep st st.network := by
    simp [signDataEnsureConnected, h]
  have hnet : (connectWalletWatcherStep st none).network = some "devnet" := by
    by_cases hc : st.watcher = none ∨ st.network ≠ some "devnet"
    · rcases hc with hc | hc <;>
        simp [connectWalletWatcherStep, setupWatcherStep, jsOrStr, hc]
    · push_neg at hc
      simp [connectWalletWatcherStep, jsOrStr, hc.1, hc.2]
  refine ⟨hfund, hclaim, by rw [hfund]; exact hnet, by rw [hclaim]; exact hnet,
    ?_, hsign, ?_⟩
  · intro hne
    have : (connectWalletWatcherStep st none).watcher = some "devnet" := by
      unfold connectWalletWatcherStep setupWatcherStep jsOrStr
      simp [hne]
    exact ⟨by rw [hfund]; exact this, by rw [hclaim]; exact this⟩
  · intro n hn hne hw
    rw [hsign]
    unfold connectWalletWatcherStep jsOrStr
    rw [hn]
    simp [hne, Option.isNone_iff_eq_none]
    intro hwnone
    rw [hwnone] at hw
    simp at hw

/-- Witness for C9's theorem: a fresh post-startup mainnet session with no
wallet.  `fundSurvey`'s reconnect retargets devnet and replaces the
watcher; `signData`'s reconnect leaves the mainnet session untouched. -/
theorem implicit_reconnect_network_witness :
    (fundSurveyEnsureConnected postInitNoWalletState).network = some "devnet" ∧
    (fundSurveyEnsureConnected postInitNoWalletState).watcher = some "devnet" ∧
    signDataEnsureConnected postInitNoWalletState = postInitNoWalletState :=
  ⟨(implicit_reconnect_network postInitNoWalletState rfl).2.2.1,
   ((implicit_reconnect_network postInitNoWalletState rfl).2.2.2.2.1 (by decide)).1,
   (implicit_reconnect_network postInitNoWalletState rfl).2.2.2.2.2.2
     "mainnet" rfl (by decide) rfl⟩

/-- C2: the message router emits exactly one `AGORIC_RESPONSE` echoing the
request's id for each of the five recognized operation types (success or
failure alike), and emits nothing for the two reserved tags or for any
unrecognized type. -/
theorem router_exactly_one_response (mtype : String) (mid : Option String)
    (ops : OpResults) (st : SandboxState) :
    ((mtype = "CONNECT_WALLET" ∨ mtype = "SIGN_DATA" ∨ mtype = "FUND_SURVEY" ∨
        mtype = "CLAIM_REWARDS" ∨ mtype = "GET_STATUS") →
      ∃ r, handleMessage mtype mid ops st = [r] ∧
        r.mtype = "AGORIC_RESPONSE" ∧ r.id = mid) ∧
    ((mtype = "AGORIC_RESPONSE" ∨ mtype = "AGORIC_READY") →
      handleMessage mtype mid ops st = []) ∧
    (mtype ∉ (["CONNECT_WALLET", "SIGN_DATA", "FUND_SURVEY", "CLAIM_REWARDS",
        "GET_STATUS", "AGORIC_RESPONSE", "AGORIC_READY"] : List String) →
      handleMessage mtype mid ops st = []) := by
  refine ⟨?_, ?_, ?_⟩
  · rintro (rfl | rfl | rfl | rfl | rfl)
    · cases hop : ops.connectWallet with
      | ok v => exact ⟨mkSuccessResponse mid v,
          by simp [handleMessage, dispatchOp, hop], rfl, rfl⟩
      | error e => exact ⟨mkErrorResponse mid e,
          by simp [handleMessage, dispatchOp, hop], rfl, rfl⟩
    · cases hop : ops.signData with
      | ok v => exact ⟨mkSuccessResponse mid v,
          by simp [handleMessage, dispatchOp, hop], rfl, rfl⟩
      | error e => exact ⟨mkErrorResponse mid e,
          by simp [handleMessage, dispatchOp, hop], rfl, rfl⟩
    · cases hop : ops.fundSurvey with
      | ok v => exact ⟨mkSuccessResponse mid v,
          by simp [handleMessage, dispatchOp, hop], rfl, rfl⟩
      | error e => exact ⟨mkErrorResponse mid e,
          by simp [handleMessage, dispatchOp, hop], rfl, rfl⟩
    · cases hop : ops.claimRewards with
      | ok v => exact ⟨mkSuccessResponse mid v,
          by simp [handleMessage, dispatchOp, hop], rfl, rfl⟩
      | error e => exact ⟨mkErrorResponse mid e,
          by simp [handleMessage, dispatchOp, hop], rfl, rfl⟩
    · exact ⟨mkSuccessResponse mid (RespData.statusSnapshot (getStatusSnapshot st)),
        rfl, rfl, rfl⟩
  · rintro (rfl | rfl) <;> rfl
  · intro hn
    have hres : ¬(mtype = "AGORIC_RESPONSE" ∨ mtype = "AGORIC_READY") := by
      rintro (rfl | rfl) <;> simp at hn
    have hdis : dispatchOp mtype ops st = none := by
      unfold dispatchOp
      split <;> simp_all
    unfold handleMessage
    rw [if_neg hres, hdis]

/-- Witness for C2's theorem: a `GET_STATUS` request with id `"r1"` gets
exactly one response, a `FUND_SURVEY` request whose operation fails gets
exactly one response, and an unrecognized type gets none. -/
theorem router_exactly_one_response_witness :
    (∃ r, handleMessage "GET_STATUS" (some "r1") sampleOps initialState = [r] ∧
      r.mtype = "AGORIC_RESPONSE" ∧ r.id = some "r1") ∧
    (∃ r, handleMessage "FUND_SURVEY" (some "r2")
        { sampleOps with fundSurvey := Except.error (JsError.jsString "boom") }
        initialState = [r] ∧
      r.mtype = "AGORIC_RESPONSE" ∧ r.id = some "r2") ∧
    handleMessage "SOME_OTHER_TYPE" (some "r3") sampleOps initialState = [] :=
  ⟨(router_exactly_one_response "GET_STATUS" (some "r1") sampleOps
      initialState).1 (Or.inr (Or.inr (Or.inr (Or.inr rfl)))),
   (router_exactly_one_response "FUND_SURVEY" (some "r2")
      { sampleOps with fundSurvey := Except.error (JsError.jsString "boom") }
      initialState).1 (Or.inr (Or.inr (Or.inl rfl))),
   (router_exactly_one_response "SOME_OTHER_TYPE" (some "r3") sampleOps
      initialState).2.2 (by decide)⟩

/-- Counterexample to C4 as stated.  Both the remembered `seated` payload
(txn `"txA"`) and the terminal update's own payload (txn `"txB"`) carry
transaction info.  The claim says `data` is the terminal update's own
payload in that case; the code computes `seatedData || update.data` and
resolves with the seated payload `"txA"` instead. -/
theorem accepted_data_counterexample :
    acceptedResolution
        (some { txn := some { transactionHash := "txA" }, offerId := some 1 })
        (some { txn := some { transactionHash := "txB" }, offerId := some 2 })
        none =
      { status := "accepted",
        data := some { txn := some { transactionHash := "txA" }, offerId := some 1 } } ∧
    ({ txn := some { transactionHash := "txA" }, offerId := some 1 } : TxData) ≠
      { txn := some { transactionHash := "txB" }, offerId := some 2 } := by
  exact ⟨rfl, by decide⟩

/-- C4 (amended): on a terminal `accepted` update the promise always
resolves (never rejects) with status `"accepted"`, and `data` is the
remembered `seated` payload if present, else the update's own payload;
when the selected payload is absent or lacks transaction info, the REST
fallback's result replaces it if that fallback returned one, else whatever
was selected (possibly nothing, possibly lacking `txn`) is kept. -/
theorem accepted_always_resolves (seatedData updateData apiTxData : Option TxData) :
    (acceptedResolution seatedData updateData apiTxData).status = "accepted" ∧
    (acceptedResolution seatedData updateData apiTxData).data =
      (let sel := jsOrOpt seatedData updateData
       if (sel.bind TxData.txn).isSome then sel else jsOrOpt apiTxData sel) := by
  refine ⟨rfl, ?_⟩
  cases seatedData with
  | none =>
    cases updateData with
    | none => cases apiTxData <;> rfl
    | some u =>
      cases hu : u.txn <;> cases apiTxData <;>
        simp [acceptedResolution, acceptedFinalData, jsOrOpt, hu]
  | some s =>
    cases hs : s.txn <;> cases apiTxData <;>
      simp [acceptedResolution, acceptedFinalData, jsOrOpt, hs]

/-- Counterexample to C5 as stated.  A dispatched operation that throws
the bare string `"boom"` has textual description `"boom"` (that is what
the repository's own `getErrorMessage` yields), but the router's failure
response carries the fixed fallback text `"An unknown error occurred"`:
the catch reads `error.message`, never stringifying non-Error failures. -/
theorem error_response_counterexample :
    mkErrorResponse (some "r1") (JsError.jsString "boom") =
      { mtype := "AGORIC_RESPONSE", id := some "r1", success := some false
        data := none
        errorField := some { code := "UNKNOWN_ERROR"
                             message := "An unknown error occurred" } } ∧
    getErrorMessage (JsError.jsString "boom") = "boom" ∧
    ("An unknown error occurred" : String) ≠ "boom" := by
  exact ⟨rfl, rfl, by decide⟩

/-- C5 (amended): the router's failure response preserves the failure's
`code` field when it is present (and non-empty, `""` being falsy under
`||`) and uses the `UNKNOWN_ERROR` sentinel otherwise; its `message` is
the failure's own `message` field when present (and non-empty) and the
fixed text `"An unknown error occurred"` otherwise — the catch performs
no stringification of non-Error failures. -/
theorem error_response_fields (mid : Option String) (e : JsError) :
    (mkErrorResponse mid e).mtype = "AGORIC_RESPONSE" ∧
    (mkErrorResponse mid e).id = mid ∧
    (mkErrorResponse mid e).success = some false ∧
    (∀ c, errCode e = some c → c ≠ "" →
      (mkErrorResponse mid e).errorField.map ResponseError.code = some c) ∧
    ((errCode e = none ∨ errCode e = some "") →
      (mkErrorResponse mid e).errorField.map ResponseError.code =
        some "UNKNOWN_ERROR") ∧
    (∀ m, errMessageField e = some m → m ≠ "" →
      (mkErrorResponse mid e).errorField.map ResponseError.message = some m) ∧
    ((errMessageField e = none ∨ errMessageField e = some "") →
      (mkErrorResponse mid e).errorField.map ResponseError.message =
        some "An unknown error occurred") := by
  refine ⟨rfl, rfl, rfl, ?_, ?_, ?_, ?_⟩
  · intro c hc hne
    simp [mkErrorResponse, jsOrStr, hc, hne]
  · rintro (hc | hc) <;> simp [mkErrorResponse, jsOrStr, hc]
  · intro m hm hne
    simp [mkErrorResponse, jsOrStr, hm, hne]
  · rintro (hm | hm) <;> simp [mkErrorResponse, jsOrStr, hm]

/-- Witness for C5's amended theorem: a thrown
`\x7bcode: "KEPLR_NOT_INSTALLED", message: "Keplr wallet extension not
found"\x7d` keeps both fields, and a thrown bare string gets the sentinel
code and the fixed message. -/
theorem error_response_fields_witness :
    (mkErrorResponse (some "w1")
        (JsError.plainObj (some "KEPLR_NOT_INSTALLED")
          (some "Keplr wallet extension not found") "" "")).errorField.map
        ResponseError.code = some "KEPLR_NOT_INSTALLED" ∧
    (mkErrorResponse (some "w1")
        (JsError.plainObj (some "KEPLR_NOT_INSTALLED")
          (some "Keplr wallet extension not found") "" "")).errorField.map
        ResponseError.message = some "Keplr wallet extension not found" ∧
    (mkErrorResponse (some "w2") (JsError.jsString "boom")).errorField.map
        ResponseError.code = some "UNKNOWN_ERROR" ∧
    (mkErrorResponse (some "w2") (JsError.jsString "boom")).errorField.map
        ResponseError.message = some "An unknown error occurred" :=
  ⟨(error_response_fields (some "w1") _).2.2.2.1 _ rfl (by decide),
   (error_response_fields (some "w1") _).2.2.2.2.2.1 _ rfl (by decide),
   (error_response_fields (some "w2") (JsError.jsString "boom")).2.2.2.2.1
     (Or.inl rfl),
   (error_response_fields (some "w2") (JsError.jsString "boom")).2.2.2.2.2.2
     (Or.inl rfl)⟩

/-- The comparator agrees with the lexicographic order on lists of
characters. -/
theorem charListLe_iff_le : ∀ (as bs : List Char),
    charListLe as bs = true ↔ as ≤ bs
  | [], bs => by simp [charListLe, List.nil_le]
  | a :: as, [] => by
    simp only [charListLe, Bool.false_eq_true, false_iff]
    exact not_le.mpr (List.Lex.nil)
  | a :: as, b :: bs => by
    rcases lt_trichotomy a b with hab | rfl | hba
    · simp only [charListLe, if_pos hab]
      exact iff_of_true trivial (le_of_lt (List.Lex.rel hab))
    · have hirr : ¬ a < a := lt_irrefl a
      simp only [charListLe, if_neg hirr]
      rw [charListLe_iff_le as bs]
      constructor
      · intro h
        rw [← not_lt] at h ⊢
        intro hlex
        cases hlex with
        | cons h' => exact h h'
        | rel h' => exact absurd h' (lt_irrefl a)
      · intro h
        rw [← not_lt] at h ⊢
        intro hlt
        exact h (List.Lex.cons hlt)
    · have h1 : ¬ a < b := fun h => lt_asymm hba h
      simp only [charListLe, if_neg h1, if_pos hba]
      exact iff_of_false (by simp) (not_le.mpr (List.Lex.rel hba))

/-- The comparator agrees with the standard string order. -/
theorem charListLe_le (x y : String) :
    charListLe x.data y.data = true ↔ x ≤ y := by
  rw [String.le_iff_toList_le]
  exact charListLe_iff_le x.data y.data

/-- Inserting an entry permutes consing it in front. -/
theorem insertDescById_perm (e : InvitationEntry) (l : List InvitationEntry) :
    List.Perm (insertDescById e l) (e :: l) := by
  induction l with
  | nil => exact List.Perm.refl _
  | cons x xs ih =>
    unfold insertDescById
    by_cases hc : charListLe x.1.data e.1.data = true
    · rw [if_pos hc]
    · rw [if_neg hc]
      exact (ih.cons x).trans (List.Perm.swap e x xs)

/-- The sort is a permutation of its input. -/
theorem sortDescById_perm (l : List InvitationEntry) :
    List.Perm (sortDescById l) l := by
  induction l with
  | nil => exact List.Perm.refl _
  | cons e rest ih =>
    exact (insertDescById_perm e (sortDescById rest)).trans (ih.cons e)

/-- Insertion preserves descending-by-id sortedness. -/
theorem insertDescById_pairwise (e : InvitationEntry)
    (l : List InvitationEntry)
    (h : List.Pairwise (fun a b : InvitationEntry => b.1 ≤ a.1) l) :
    List.Pairwise (fun a b : InvitationEntry => b.1 ≤ a.1)
      (insertDescById e l) := by
  induction l with
  | nil => simp [insertDescById]
  | cons x xs ih =>
    rcases List.pairwise_cons.mp h with ⟨hx, hxs⟩
    unfold insertDescById
    by_cases hc : charListLe x.1.data e.1.data = true
    · rw [if_pos hc]
      have hxe : x.1 ≤ e.1 := (charListLe_le x.1 e.1).mp hc
      refine List.pairwise_cons.mpr ⟨?_, h⟩
      intro y hy
      rcases List.mem_cons.mp hy with rfl | hy'
      · exact hxe
      · exact le_trans (hx y hy') hxe
    · rw [if_neg hc]
      have hex : e.1 ≤ x.1 := by
        rcases le_total x.1 e.1 with h' | h'
        · exact absurd ((charListLe_le x.1 e.1).mpr h') hc
        · exact h'
      refine List.pairwise_cons.mpr ⟨?_, ih hxs⟩
      intro y hy
      rcases List.mem_cons.mp ((insertDescById_perm e xs).mem_iff.mp hy) with
        rfl | hy''
      · exact hex
      · exact hx y hy''

/-- The sort's output is descending by invitation id. -/
theorem sortDescById_pairwise (l : List InvitationEntry) :
    List.Pairwise (fun a b : InvitationEntry => b.1 ≤ a.1)
      (sortDescById l) := by
  induction l with
  | nil => simp [sortDescById]
  | cons e rest ih => exact insertDescById_pairwise e _ ih

/-- C6: whenever the wallet record holds two or more (in fact at least
one) distinct entries matching the sentinel description, the resolver
returns a matching entry whose invitation-id string is the greatest among
all matching ids — descending lexicographic string order, not any
chronological ordering. -/
theorem resolver_picks_greatest_id (r : WalletRecord) (e1 e2 : InvitationEntry)
    (h1 : e1 ∈ r.offerToUsedInvitation) (h2 : e2 ∈ r.offerToUsedInvitation)
    (hne : e1 ≠ e2)
    (hm1 : matchesSentinel e1 = true) (hm2 : matchesSentinel e2 = true) :
    ∃ acct, (getAccountInvitation (some r)).2 = Except.ok (some acct) ∧
      acct.id ∈ matchingIds r ∧ ∀ i ∈ matchingIds r, i ≤ acct.id := by
  have hl1 : e1 ∈ r.offerToUsedInvitation.filter matchesSentinel :=
    List.mem_filter.mpr ⟨h1, hm1⟩
  have hperm := sortDescById_perm (r.offerToUsedInvitation.filter matchesSentinel)
  have hsorted :=
    sortDescById_pairwise (r.offerToUsedInvitation.filter matchesSentinel)
  obtain ⟨hd, tl, heq⟩ :
      ∃ hd tl,
        sortDescById (r.offerToUsedInvitation.filter matchesSentinel) =
          hd :: tl := by
    cases hms :
        sortDescById (r.offerToUsedInvitation.filter matchesSentinel) with
    | nil =>
        exfalso
        have hin : e1 ∈
            sortDescById (r.offerToUsedInvitation.filter matchesSentinel) :=
          hperm.mem_iff.mpr hl1
        rw [hms] at hin
        exact absurd hin (List.not_mem_nil e1)
    | cons a t => exact ⟨a, t, rfl⟩
  refine ⟨{ id := hd.1, invitation := hd.2 }, ?_, ?_, ?_⟩
  · simp only [getAccountInvitation]
    rw [heq]
    rfl
  · have hmem : hd ∈ r.offerToUsedInvitation.filter matchesSentinel :=
      hperm.mem_iff.mp (heq ▸ List.mem_cons_self hd tl)
    exact List.mem_map_of_mem Prod.fst hmem
  · intro i hi
    obtain ⟨x, hx, rfl⟩ := List.mem_map.mp hi
    have hxm : x ∈
        sortDescById (r.offerToUsedInvitation.filter matchesSentinel) :=
      hperm.mem_iff.mpr hx
    rw [heq] at hxm
    rcases List.mem_cons.mp hxm with rfl | hxtl
    · exact le_refl _
    · exact (List.pairwise_cons.mp (heq ▸ hsorted)).1 x hxtl

/-- Witness for C6's theorem: the two-entry record with ids `"a"` and
`"b"` (inserted in that chronological order) resolves to the entry keyed
`"b"`, the greatest id. -/
theorem resolver_picks_greatest_id_witness :
    (∃ acct, (getAccountInvitation (some recordAB)).2 = Except.ok (some acct) ∧
      acct.id ∈ matchingIds recordAB ∧ ∀ i ∈ matchingIds recordAB, i ≤ acct.id) ∧
    (getAccountInvitation (some recordAB)).2 =
      Except.ok (some { id := "b", invitation := some sentinelUsedInvitation }) :=
  ⟨resolver_picks_greatest_id recordAB
      ("a", some sentinelUsedInvitation) ("b", some sentinelUsedInvitation)
      (by decide) (by decide) (by decide)
      (by decide) (by decide),
   rfl⟩

/-- C3: the claim (and the spec's routing invariant) says the routing step
never raises once the preconditions (wallet connected, contract instance
known, brands populated, brand found) hold, falling through to the Create
route when no invitation resolves.  The code violates this: in
`offerStateNoRecord` every precondition holds, yet the routing call to
`getAccountInvitation` throws the null-record `TypeError` and `makeOffer`
rejects.  With a record snapshot present the routing behaves as claimed:
no matching entry gives the Create route (public invitation, `offerArgs`
carrying the messages), a matching record gives the Continue route
referencing the greatest matching id `"b"` with
`["sendTransactions", [\x7bmessages\x7d]]` arguments. -/
theorem makeOffer_routing_throws_without_record :
    offerStateNoRecord.wallet.isSome = true ∧
    offerStateNoRecord.contractInstance.isSome = true ∧
    offerStateNoRecord.brands.isSome = true ∧
    (brandLookup offerStateNoRecord.brands
      (brandKeyOf sampleOfferParams.denom)).isSome = true ∧
    makeOfferPlan offerStateNoRecord sampleOfferParams =
      Except.error (JsError.typeError "offerToUsedInvitation") ∧
    makeOfferPlan offerStateEmptyRecord sampleOfferParams =
      Except.ok
        { invitationSpec := InvitationSpec.contract "inst1" "createQstnAccountKit"
          proposal := { giveDepositBrand := "bldBrand", giveDepositValue := 1000000 }
          offerArgs := some "m1"
          accountWasCreated := true } ∧
    makeOfferPlan offerStateRecordAB sampleOfferParams =
      Except.ok
        { invitationSpec := InvitationSpec.continuing "b"
            "makeTransactionInvitation" ("sendTransactions", ["m1"])
          proposal := { giveDepositBrand := "bldBrand", giveDepositValue := 1000000 }
          offerArgs := none
          accountWasCreated := false } :=
  ⟨rfl, rfl, rfl, rfl, rfl, rfl, rfl⟩

end AgoricSandbox
